import Mathlib

/-!
Verification of the CADinterpreter repository's geometric structure-inference
engine and narrative synthesizer.  The definitions below are a shallow
embedding of the TypeScript source (`InterpreterService.identifyStructures`,
`InterpreterService.linesOverlap`, and
`InterpreterService.generateAutoCADInterpretation`).  JavaScript numbers are
modelled as rationals; all thresholds (0.1, 0.5, 1, 3) are exact in both the
source inputs of interest and the model.
-/

namespace CADInterp

/-- A 2D coordinate point, the source's `[number, number]`. -/
abbrev Coord : Type := ℚ × ℚ

/-- The source's `AutoCADElement` tagged union.  Per the spec's input
contract, a line carries exactly two coordinate points. -/
inductive AutoCADElement : Type where
  | line (p1 p2 : Coord) (layer : String)
  | circle (center : Coord) (radius : ℚ) (layer : String)
  | text (content : String) (position : Coord) (layer : String)
deriving DecidableEq

/-- The layer tag carried by every element. -/
def AutoCADElement.layerOf : AutoCADElement → String
  | .line _ _ l => l
  | .circle _ _ l => l
  | .text _ _ l => l

/-- An oriented segment record `{x1, x2, y1, y2}` as pushed onto
`horizontalLines` / `verticalLines` in `identifyStructures`. -/
structure Seg : Type where
  x1 : ℚ
  x2 : ℚ
  y1 : ℚ
  y2 : ℚ
deriving DecidableEq

/-- A detected room `{x, y, width, height}`. -/
structure Room : Type where
  x : ℚ
  y : ℚ
  width : ℚ
  height : ℚ
deriving DecidableEq

/-- A derived corridor `{x1, y1, x2, y2, width}`. -/
structure Corridor : Type where
  x1 : ℚ
  y1 : ℚ
  x2 : ℚ
  y2 : ℚ
  width : ℚ
deriving DecidableEq

/-- The classifier's output `{rooms, corridors}`. -/
structure StructureSet : Type where
  rooms : List Room
  corridors : List Corridor
deriving DecidableEq

/-- The two coordinate points of every `line` element, in element order
(the source's `elements.filter(e => e.type === 'line')`). -/
def lineElems (elements : List AutoCADElement) : List (Coord × Coord) :=
  elements.filterMap fun e =>
    match e with
    | .line p1 p2 _ => some (p1, p2)
    | _ => none

/-- One step of the horizontal/vertical classification loop of
`identifyStructures` (source lines 356-377): a line with `|y2 - y1| < 0.1`
is pushed (with x-coordinates normalized to min/max order) onto the
horizontal list; otherwise, one with `|x2 - x1| < 0.1` is pushed (with
y-coordinates normalized) onto the vertical list; all other lines are
dropped. -/
def classifyStep (acc : List Seg × List Seg) (l : Coord × Coord) :
    List Seg × List Seg :=
  let x1 := l.1.1
  let y1 := l.1.2
  let x2 := l.2.1
  let y2 := l.2.2
  if |y2 - y1| < 0.1 then
    (acc.1 ++ [⟨min x1 x2, max x1 x2, y1, y2⟩], acc.2)
  else if |x2 - x1| < 0.1 then
    (acc.1, acc.2 ++ [⟨x1, x2, min y1 y2, max y1 y2⟩])
  else acc

/-- The full classification pass over the extracted lines. -/
def classifySegs (ls : List (Coord × Coord)) : List Seg × List Seg :=
  ls.foldl classifyStep ([], [])

/-- The source's `linesOverlap(a1, a2, b1, b2)` with tolerance 0.5. -/
def linesOverlap (a1 a2 b1 b2 : ℚ) : Bool :=
  decide (b1 ≥ a1 - 0.5 ∧ b1 ≤ a2 + 0.5) ||
  decide (b2 ≥ a1 - 0.5 ∧ b2 ≤ a2 + 0.5) ||
  decide (a1 ≥ b1 - 0.5 ∧ a1 ≤ b2 + 0.5) ||
  decide (a2 ≥ b1 - 0.5 ∧ a2 ≤ b2 + 0.5)

/-- The body of the innermost room-detection loop (source lines 388-415):
given two horizontal segments and a candidate pair of vertical segments,
produce the candidate room if the vertical pair is non-coincident, the eight
overlap tests pass, and the candidate is larger than the minimum size. -/
def roomCandidate (h1L h2L v1L v2L : Seg) : Option Room :=
  if |v1L.x1 - v2L.x1| > 1 then
    if (linesOverlap h1L.x1 h1L.x2 v1L.x1 v1L.x1 &&
        linesOverlap h1L.x1 h1L.x2 v2L.x1 v2L.x1 &&
        linesOverlap h2L.x1 h2L.x2 v1L.x1 v1L.x1 &&
        linesOverlap h2L.x1 h2L.x2 v2L.x1 v2L.x1 &&
        linesOverlap v1L.y1 v1L.y2 h1L.y1 h1L.y1 &&
        linesOverlap v1L.y1 v1L.y2 h2L.y1 h2L.y1 &&
        linesOverlap v2L.y1 v2L.y2 h1L.y1 h1L.y1 &&
        linesOverlap v2L.y1 v2L.y2 h2L.y1 h2L.y1) = true then
      let x := min v1L.x1 v2L.x1
      let y := min h1L.y1 h2L.y1
      let width := |v1L.x1 - v2L.x1|
      let height := |h1L.y1 - h2L.y1|
      if width > 1 ∧ height > 1 then some ⟨x, y, width, height⟩ else none
    else none
  else none

/-- The duplicate-room test of source lines 417-422: all four fields within
0.5 of each other. -/
def roomsNear (room r : Room) : Bool :=
  decide (|room.x - r.x| < 0.5) && decide (|room.y - r.y| < 0.5) &&
  decide (|room.width - r.width| < 0.5) && decide (|room.height - r.height| < 0.5)

/-- Appending a candidate room unless a near-duplicate is already present
(source lines 416-426). -/
def dedupInsert (rooms : List Room) (r : Room) : List Room :=
  if rooms.any (fun room => roomsNear room r) then rooms else rooms ++ [r]

/-- All ordered index pairs `(l[i], l[j])` with `i < j`, in the iteration
order of the source's nested `for` loops. -/
def ordPairs : List α → List (α × α)
  | [] => []
  | a :: rest => rest.map (fun b => (a, b)) ++ ordPairs rest

/-- The room-detection nested loops of `identifyStructures`
(source lines 383-434). -/
def detectRooms (hs vs : List Seg) : List Room :=
  (ordPairs hs).foldl
    (fun rooms hp =>
      if |hp.1.y1 - hp.2.y1| > (1 : ℚ) then
        (ordPairs vs).foldl
          (fun rooms2 vp =>
            match roomCandidate hp.1 hp.2 vp.1 vp.2 with
            | some r => dedupInsert rooms2 r
            | none => rooms2)
          rooms
      else rooms)
    []

/-- The corridor classification applied to one room (the body of the
`rooms.forEach` of source lines 438-460): a room qualifying as elongated
yields exactly one corridor, horizontal when wider than tall. -/
def deriveCorridor (room : Room) : Option Corridor :=
  if (room.width > room.height * 3 ∧ room.height < 3) ∨
     (room.height > room.width * 3 ∧ room.width < 3) then
    if room.width > room.height then
      some ⟨room.x, room.y + room.height / 2,
            room.x + room.width, room.y + room.height / 2, room.height⟩
    else
      some ⟨room.x + room.width / 2, room.y,
            room.x + room.width / 2, room.y + room.height, room.width⟩
  else none

/-- One step of the corridor-accumulation loop: push the derived corridor,
if any. -/
def corridorStep (acc : List Corridor) (room : Room) : List Corridor :=
  match deriveCorridor room with
  | some c => acc ++ [c]
  | none => acc

/-- The corridor-accumulation loop over all detected rooms. -/
def deriveCorridors (rooms : List Room) : List Corridor :=
  rooms.foldl corridorStep []

/-- The source's `identifyStructures`: classify lines, detect rooms,
derive corridors. -/
def identifyStructures (elements : List AutoCADElement) : StructureSet :=
  let hv := classifySegs (lineElems elements)
  let rooms := detectRooms hv.1 hv.2
  ⟨rooms, deriveCorridors rooms⟩

/-- A `line` element whose two coordinate points coincide. -/
def isPointLine : AutoCADElement → Bool
  | .line p1 p2 _ => decide (p1 = p2)
  | _ => false

/-- The classification of one line as a horizontal segment, if any
(functional view of `classifyStep`'s first branch). -/
def toHSeg (l : Coord × Coord) : Option Seg :=
  if |l.2.2 - l.1.2| < 0.1 then
    some ⟨min l.1.1 l.2.1, max l.1.1 l.2.1, l.1.2, l.2.2⟩
  else none

/-- The classification of one line as a vertical segment, if any
(functional view of `classifyStep`'s second branch). -/
def toVSeg (l : Coord × Coord) : Option Seg :=
  if |l.2.2 - l.1.2| < 0.1 then none
  else if |l.2.1 - l.1.1| < 0.1 then
    some ⟨l.1.1, l.2.1, min l.1.2 l.2.2, max l.1.2 l.2.2⟩
  else none

/-- Two rooms are apart when they are not within the 0.5 duplicate
tolerance on all four fields simultaneously (the negation of the source's
duplicate test, as a proposition). -/
def RoomApart (a b : Room) : Prop :=
  ¬(|a.x - b.x| < 0.5 ∧ |a.y - b.y| < 0.5 ∧
    |a.width - b.width| < 0.5 ∧ |a.height - b.height| < 0.5)

/-- The candidate rooms visited by the nested room-detection loops, in
visit order, before duplicate suppression (a re-association of
`detectRooms` used by the proofs below). -/
def roomStream (hs vs : List Seg) : List Room :=
  (ordPairs hs).flatMap fun hp =>
    if |hp.1.y1 - hp.2.y1| > (1 : ℚ) then
      (ordPairs vs).filterMap fun vp => roomCandidate hp.1 hp.2 vp.1 vp.2
    else []

/-! ### The narrative synthesizer (`generateAutoCADInterpretation`) -/

/-- Contents of all `text` elements, in element order. -/
def textContents (elements : List AutoCADElement) : List String :=
  elements.filterMap fun e =>
    match e with
    | .text c _ _ => some c
    | _ => none

/-- Center/radius of all `circle` elements, in element order. -/
def circleElems (elements : List AutoCADElement) : List (Coord × ℚ) :=
  elements.filterMap fun e =>
    match e with
    | .circle c r _ => some (c, r)
    | _ => none

def linesCount (elements : List AutoCADElement) : ℕ := (lineElems elements).length

def circlesCount (elements : List AutoCADElement) : ℕ := (circleElems elements).length

def textsCount (elements : List AutoCADElement) : ℕ := (textContents elements).length

/-- Lengths of the lines classified as horizontal by the interpretation pass
(source lines 170-184; `|Δy| < 0.1`, length `|Δx|`). -/
def interpHLens (elements : List AutoCADElement) : List ℚ :=
  (lineElems elements).filterMap fun l =>
    if |l.2.2 - l.1.2| < 0.1 then some |l.2.1 - l.1.1| else none

/-- Lengths of the lines classified as vertical by the interpretation pass
(not horizontal, and `|Δx| < 0.1`; length `|Δy|`). -/
def interpVLens (elements : List AutoCADElement) : List ℚ :=
  (lineElems elements).filterMap fun l =>
    if |l.2.2 - l.1.2| < 0.1 then none
    else if |l.2.1 - l.1.1| < 0.1 then some |l.2.2 - l.1.2| else none

def interpHCount (elements : List AutoCADElement) : ℕ := (interpHLens elements).length

def interpVCount (elements : List AutoCADElement) : ℕ := (interpVLens elements).length

/-- `maxHorizontalLength`: running maximum of horizontal lengths, from 0. -/
def maxHLen (elements : List AutoCADElement) : ℚ := (interpHLens elements).foldl max 0

/-- `maxVerticalLength`: running maximum of vertical lengths, from 0. -/
def maxVLen (elements : List AutoCADElement) : ℚ := (interpVLens elements).foldl max 0

/-- JavaScript `String.prototype.includes`: substring containment. -/
def strContains (s pat : String) : Bool := decide (pat.data <:+: s.data)

/-- JavaScript `Array.prototype.join(sep)`. -/
def joinSep (sep : String) : List String → String
  | [] => ""
  | [x] => x
  | x :: y :: xs => x ++ sep ++ joinSep sep (y :: xs)

/-- Wrapping a text in double quotes, as the source's template literals do. -/
def quoteStr (t : String) : String := "\"" ++ t ++ "\""

/-- `elements.reduce` grouping by layer: an insertion-ordered association
list, each group in element order (JS object key order). -/
def layerGroups (elements : List AutoCADElement) : List (String × List AutoCADElement) :=
  elements.foldl
    (fun acc e =>
      if acc.any (fun g => g.1 == e.layerOf) then
        acc.map (fun g => if g.1 == e.layerOf then (g.1, g.2 ++ [e]) else g)
      else acc ++ [(e.layerOf, [e])])
    []

/-- Stable insertion of `x` after all entries with key ≥ its own
(descending order; equal keys keep insertion order, as the source's stable
`Array.prototype.sort` with comparator `b - a` does). -/
def insertDesc [LinearOrder β] (key : α → β) (x : α) : List α → List α
  | [] => [x]
  | y :: ys => if key x ≤ key y then y :: insertDesc key x ys else x :: y :: ys

/-- Stable sort, descending by `key`. -/
def sortByDesc [LinearOrder β] (key : α → β) : List α → List α
  | [] => []
  | x :: xs => insertDesc key x (sortByDesc key xs)

/-- The top-3 layer descriptions (sorted by member count descending). -/
def mainLayers (elements : List AutoCADElement) : List String :=
  ((sortByDesc (fun g => g.2.length) (layerGroups elements)).take 3).map
    fun g => "'" ++ g.1 ++ "'(" ++ toString g.2.length ++ "개 요소)"

/-- The integer `n` of ECMAScript `toFixed(1)`: the integer with `n / 10`
closest to `q`, ties resolved to the larger `n` — that is `⌊10q + 1/2⌋`. -/
def ratRound10 (q : ℚ) : ℤ := ⌊q * 10 + 1 / 2⌋

/-- JavaScript `Number.prototype.toFixed(1)` for the (exact, decimal)
values that occur here; one digit after the decimal point. -/
def toFixed1 (q : ℚ) : String :=
  let n := ratRound10 q
  if n < 0 then
    "-" ++ toString ((-n).toNat / 10) ++ "." ++ toString ((-n).toNat % 10)
  else
    toString (n.toNat / 10) ++ "." ++ toString (n.toNat % 10)

/-- `parseFloat` of a `toFixed(1)` rendering: the rounded value itself. -/
def fix1Val (q : ℚ) : ℚ := (ratRound10 q : ℚ) / 10

/-- The `elementDescription` array: one entry per element type present. -/
def elementDescription (elements : List AutoCADElement) : List String :=
  (if linesCount elements ≠ 0 then [toString (linesCount elements) ++ "개의 선"] else []) ++
  (if circlesCount elements ≠ 0 then [toString (circlesCount elements) ++ "개의 원형 요소"] else []) ++
  (if textsCount elements ≠ 0 then [toString (textsCount elements) ++ "개의 텍스트"] else [])

/-- Keyword test of the first drawing-type branch (plan). -/
def hasPlanKw (elements : List AutoCADElement) : Bool :=
  (textContents elements).any fun t =>
    strContains t.toLower "plan" || strContains t "평면도" || strContains t "설계도"

/-- Keyword test of the second drawing-type branch (elevation). -/
def hasElevKw (elements : List AutoCADElement) : Bool :=
  (textContents elements).any fun t =>
    strContains t.toLower "elevation" || strContains t "입면도"

/-- Keyword test of the third drawing-type branch (section). -/
def hasSectKw (elements : List AutoCADElement) : Bool :=
  (textContents elements).any fun t =>
    strContains t.toLower "section" || strContains t "단면도"

/-- The drawing-type inference (`buildingType`, source lines 208-229):
text keywords first, then the structural fallbacks, then the default. -/
def buildingTypeOf (elements : List AutoCADElement) : String :=
  if hasPlanKw elements then "건축물의 평면"
  else if hasElevKw elements then "건축물의 입면"
  else if hasSectKw elements then "건축물의 단면"
  else if interpHCount elements > 10 ∧ interpVCount elements > 10 then "직각 구조의 건축물 평면"
  else if (circlesCount elements : ℚ) > (linesCount elements : ℚ) / 2 then "기계 부품 또는 설비"
  else "알 수 없는 형태의"

/-! #### The numeric-dimension text filter

The source tests each text against the regular expressions
`/\d+(\.\d+)?(\s*[xX×]\s*\d+(\.\d+)?)?/` and
`/\d+(\.\d+)?\s*(mm|cm|m|인치|ft)/` (`RegExp.prototype.test`, i.e. an
unanchored search).  The matcher below is an exact nondeterministic
embedding: a pattern maps a character list to the list of suffixes left
after every possible way of consuming a match prefix, and a test succeeds
at a position iff that list is nonempty. -/

/-- Consume one or more decimal digits (`\d+`): all possible remainders. -/
def digits1 : List Char → List (List Char)
  | [] => []
  | c :: rest => if c.isDigit then rest :: digits1 rest else []

/-- Sequencing of two pattern pieces. -/
def seqRem (f g : List Char → List (List Char)) (l : List Char) : List (List Char) :=
  (f l).flatMap g

/-- An optional pattern piece (`(...)?`). -/
def optRem (f : List Char → List (List Char)) (l : List Char) : List (List Char) :=
  l :: f l

/-- The decimal-part piece `\.\d+`. -/
def decimalRem : List Char → List (List Char)
  | '.' :: rest => digits1 rest
  | _ => []

/-- Zero or more whitespace characters (`\s*`). -/
def spaces0 : List Char → List (List Char)
  | [] => [[]]
  | c :: rest => (c :: rest) :: (if c.isWhitespace then spaces0 rest else [])

/-- A single character satisfying `p`. -/
def charRem (p : Char → Bool) : List Char → List (List Char)
  | [] => []
  | c :: rest => if p c then [rest] else []

/-- A literal string piece. -/
def litRem (lit : String) (l : List Char) : List (List Char) :=
  if lit.data.isPrefixOf l then [l.drop lit.data.length] else []

/-- Alternation of two pattern pieces. -/
def altRem (f g : List Char → List (List Char)) (l : List Char) : List (List Char) :=
  f l ++ g l

/-- The `[xX×]` character class. -/
def isXChar (c : Char) : Bool := c == 'x' || c == 'X' || c == '×'

/-- The optional group `\s*[xX×]\s*\d+(\.\d+)?` of the first regex. -/
def xGroupRem : List Char → List (List Char) :=
  seqRem spaces0 (seqRem (charRem isXChar) (seqRem spaces0 (seqRem digits1 (optRem decimalRem))))

/-- The source's first dimension regex `\d+(\.\d+)?(\s*[xX×]\s*\d+(\.\d+)?)?`. -/
def dimPat1Rem : List Char → List (List Char) :=
  seqRem digits1 (seqRem (optRem decimalRem) (optRem xGroupRem))

/-- The source's unit alternation `mm|cm|m|인치|ft`. -/
def unitRem : List Char → List (List Char) :=
  altRem (litRem "mm") (altRem (litRem "cm") (altRem (litRem "m") (altRem (litRem "인치") (litRem "ft"))))

/-- The source's second dimension regex `\d+(\.\d+)?\s*(mm|cm|m|인치|ft)`. -/
def dimPat2Rem : List Char → List (List Char) :=
  seqRem digits1 (seqRem (optRem decimalRem) (seqRem spaces0 unitRem))

/-- Unanchored search: the pattern matches starting at some position. -/
def searchRem (f : List Char → List (List Char)) : List Char → Bool
  | [] => !(f []).isEmpty
  | c :: t => !(f (c :: t)).isEmpty || searchRem f (t)

/-- `RegExp.test` for the first dimension regex. -/
def dimTest1 (s : String) : Bool := searchRem dimPat1Rem s.data

/-- `RegExp.test` for the second dimension regex. -/
def dimTest2 (s : String) : Bool := searchRem dimPat2Rem s.data

/-- The texts listed in the dimension-info paragraph (source lines 295-298). -/
def dimensionTexts (elements : List AutoCADElement) : List String :=
  (textContents elements).filter fun t => dimTest1 t || dimTest2 t

/-- The claim's numeric-dimension pattern, stated from the spec's words
(`digits[.digits][x|X|× digits[.digits]]`, or `digits[.digits] unit` with
unit among mm, cm, m, inch, ft and localized forms): this is the
specification-side pattern, to be compared with the source-side filter. -/
def dimPatternSpecTest (s : String) : Bool :=
  searchRem
    (altRem
      (seqRem digits1 (seqRem (optRem decimalRem)
        (optRem (seqRem spaces0 (seqRem (charRem isXChar) (seqRem spaces0 (seqRem digits1 (optRem decimalRem))))))))
      (seqRem digits1 (seqRem (optRem decimalRem) (seqRem spaces0
        (altRem (litRem "mm") (altRem (litRem "cm") (altRem (litRem "m")
          (altRem (litRem "inch") (altRem (litRem "인치") (litRem "ft"))))))))))
    s.data

/-- The room-findings paragraph (source lines 261-281): room count, then
the largest and smallest room sizes, sorted by `parseFloat` of the
formatted area, descending.  The source formats every room first and then
stable-sorts the formatted triples by their parsed area; sorting the rooms
by the rounded area and then formatting is the same list. -/
def roomSizesSorted (rooms : List Room) : List (String × String × String) :=
  (sortByDesc (fun r => fix1Val (r.width * r.height)) rooms).map
    fun r => (toFixed1 r.width, toFixed1 r.height, toFixed1 (r.width * r.height))

def roomSection (elements : List AutoCADElement) : String :=
  let rooms := (identifyStructures elements).rooms
  if rooms.length > 0 then
    let sizes := roomSizesSorted rooms
    let first := sizes.headD ("", "", "")
    let last := sizes.getLastD ("", "", "")
    "\n\n이 도면에서는 약 " ++ toString rooms.length ++ "개의 방(또는 구획된 공간)이 확인됩니다. " ++
    "가장 큰 공간은 " ++ first.1 ++ " x " ++ first.2.1 ++ " 단위(약 " ++ first.2.2 ++ " 제곱단위)이며, " ++
    (if sizes.length > 1 then
      "가장 작은 공간은 " ++ last.1 ++ " x " ++ last.2.1 ++ " 단위(약 " ++ last.2.2 ++ " 제곱단위)입니다. "
     else "")
  else ""

/-- The joined quoted excerpts of up to five non-trivial texts. -/
def importantTexts (elements : List AutoCADElement) : String :=
  joinSep ", " ((((textContents elements).filter fun t => t.trim.length > 1).map quoteStr).take 5)

/-- The dimension-info paragraph, present only when some text passed the
dimension filter. -/
def dimParagraph (elements : List AutoCADElement) : String :=
  if (dimensionTexts elements).length > 0 then
    "\n\n도면에서 발견된 치수 정보: " ++ joinSep ", " ((dimensionTexts elements).map quoteStr) ++ ". "
  else ""

/-- The text-excerpts section (source lines 284-303), present only when
there is at least one text element. -/
def textSection (elements : List AutoCADElement) : String :=
  if (textContents elements).length > 0 then
    "\n\n도면에 포함된 주요 텍스트 정보: " ++ importantTexts elements ++ ". " ++ dimParagraph elements
  else ""

/-- Keyword test of the first purpose branch (floor plan). -/
def hasFloorPlanKw (elements : List AutoCADElement) : Bool :=
  (textContents elements).any fun t =>
    strContains t.toLower "floor plan" || strContains t "평면도"

/-- Keyword test of the second purpose branch (elevation). -/
def hasElevPurposeKw (elements : List AutoCADElement) : Bool :=
  (textContents elements).any fun t =>
    strContains t.toLower "elevation" || strContains t "입면"

/-- `structures.rooms.some(r => r.width * r.height > 20)`. -/
def hasLargeRoom (elements : List AutoCADElement) : Bool :=
  (identifyStructures elements).rooms.any fun r => decide (r.width * r.height > 20)

/-- The purpose-inference paragraph body (source lines 306-328). -/
def purposeText (elements : List AutoCADElement) : String :=
  if hasFloorPlanKw elements then
    "이 도면은 건물의 평면도로, 방의 배치와 크기를 보여줍니다. "
  else if hasElevPurposeKw elements then
    "이 도면은 건물의 입면도로, 건물의 외관과 높이를 보여줍니다. "
  else if (circlesCount elements : ℚ) > (linesCount elements : ℚ) / 2 then
    "이 도면은 기계 부품 또는 공학적 설계도로, 원형 구성요소가 많은 것이 특징입니다. "
  else if interpHCount elements > 5 ∧ interpVCount elements > 5 ∧
          (identifyStructures elements).rooms.length > 2 then
    "이 도면은 건축물의 평면도로, 여러 방과 공간이 구획되어 있습니다. " ++
    (if (identifyStructures elements).rooms.length ≥ 4 then
      "다수의 방이 있는 것으로 보아 주거용 건물이나 사무실 공간으로 추정됩니다. "
     else if (identifyStructures elements).rooms.length ≤ 3 ∧ hasLargeRoom elements then
      "몇 개의 방과 큰 공간이 있는 것으로 보아 상업 공간이나 스튜디오 형태의 주거 공간으로 추정됩니다. "
     else "")
  else
    "이 도면은 구체적인 구조물이나 시스템의 설계도로 보입니다. 정확한 용도는 전문가의 확인이 필요합니다. "

def purposeSection (elements : List AutoCADElement) : String :=
  "\n\n이 도면의 추정 용도: " ++ purposeText elements

/-- The unconditional closing disclaimer paragraph. -/
def disclaimerPar : String :=
  "\n\n주의: 이 해석은 자동화된 분석 결과이며, 정확한 도면 해석을 위해서는 전문가의 검토가 필요합니다."

/-- The opening part of the interpretation: drawing type, size estimate,
composition breakdown and layer summary (source lines 205-258). -/
def headPart (elements : List AutoCADElement) : String :=
  "이 도면은 " ++ buildingTypeOf elements ++ " 도면으로, " ++
  "약 " ++ toFixed1 (maxHLen elements) ++ " x " ++ toFixed1 (maxVLen elements) ++
  " 단위(일반적으로 미터)의 크기를 가지고 있습니다. " ++
  "이 도면은 총 " ++ toString elements.length ++ "개의 요소로 구성되어 있으며, " ++
  joinSep ", " (elementDescription elements) ++ "를 포함하고 있습니다. " ++
  "도면은 " ++ toString (layerGroups elements).length ++ "개의 레이어로 구성되어 있으며, " ++
  (if (mainLayers elements).length > 0 then
    "주요 레이어는 " ++ joinSep ", " (mainLayers elements) ++ "입니다. "
   else "")

/-- The source's `generateAutoCADInterpretation` (`summarize`): the full
interpretation string. -/
def generateAutoCADInterpretation (elements : List AutoCADElement) : String :=
  headPart elements ++ roomSection elements ++ textSection elements ++
  purposeSection elements ++ disclaimerPar

/-! ### Concrete example inputs -/

/-- The exact rectangle input of the spec's first testable property. -/
def rectInput : List AutoCADElement :=
  [.line (0, 0) (10, 0) "W",
   .line (0, 5) (10, 5) "W",
   .line (0, 0) (0, 5) "W",
   .line (10, 0) (10, 5) "W"]

/-- Two horizontal walls and three vertical walls: three distinct rooms. -/
def threeRoomInput : List AutoCADElement :=
  [.line (0, 0) (10, 0) "W",
   .line (0, 5) (10, 5) "W",
   .line (0, 0) (0, 5) "W",
   .line (5, 0) (5, 5) "W",
   .line (10, 0) (10, 5) "W"]

/-- Exactly ten horizontal and ten vertical lines, mutually far apart
(so that no rooms arise), and no text elements. -/
def tenTenInput : List AutoCADElement :=
  [.line (0, 0) (5, 0) "H",
   .line (0, 3) (5, 3) "H",
   .line (0, 6) (5, 6) "H",
   .line (0, 9) (5, 9) "H",
   .line (0, 12) (5, 12) "H",
   .line (0, 15) (5, 15) "H",
   .line (0, 18) (5, 18) "H",
   .line (0, 21) (5, 21) "H",
   .line (0, 24) (5, 24) "H",
   .line (0, 27) (5, 27) "H",
   .line (50, 0) (50, 5) "V",
   .line (53, 0) (53, 5) "V",
   .line (56, 0) (56, 5) "V",
   .line (59, 0) (59, 5) "V",
   .line (62, 0) (62, 5) "V",
   .line (65, 0) (65, 5) "V",
   .line (68, 0) (68, 5) "V",
   .line (71, 0) (71, 5) "V",
   .line (74, 0) (74, 5) "V",
   .line (77, 0) (77, 5) "V"]

/-- Eleven horizontal and eleven vertical lines, no text elements. -/
def elevenElevenInput : List AutoCADElement :=
  [.line (0, 0) (5, 0) "H",
   .line (0, 3) (5, 3) "H",
   .line (0, 6) (5, 6) "H",
   .line (0, 9) (5, 9) "H",
   .line (0, 12) (5, 12) "H",
   .line (0, 15) (5, 15) "H",
   .line (0, 18) (5, 18) "H",
   .line (0, 21) (5, 21) "H",
   .line (0, 24) (5, 24) "H",
   .line (0, 27) (5, 27) "H",
   .line (0, 30) (5, 30) "H",
   .line (50, 0) (50, 5) "V",
   .line (53, 0) (53, 5) "V",
   .line (56, 0) (56, 5) "V",
   .line (59, 0) (59, 5) "V",
   .line (62, 0) (62, 5) "V",
   .line (65, 0) (65, 5) "V",
   .line (68, 0) (68, 5) "V",
   .line (71, 0) (71, 5) "V",
   .line (74, 0) (74, 5) "V",
   .line (77, 0) (77, 5) "V",
   .line (80, 0) (80, 5) "V"]

/-- A three-room rectangle complex (one room of area 50), plus distant
filler walls bringing the counts to six horizontal and six vertical lines;
the filler lines bound no room. -/
def studioInput : List AutoCADElement :=
  [.line (0, 0) (10, 0) "W",
   .line (0, 5) (10, 5) "W",
   .line (100, 20) (110, 20) "F",
   .line (100, 22) (110, 22) "F",
   .line (100, 24) (110, 24) "F",
   .line (100, 26) (110, 26) "F",
   .line (0, 0) (0, 5) "W",
   .line (4, 0) (4, 5) "W",
   .line (10, 0) (10, 5) "W",
   .line (200, 0) (200, 10) "F",
   .line (203, 0) (203, 10) "F",
   .line (206, 0) (206, 10) "F"]

/-- A single dimension-like text element. -/
def dimTextInput : List AutoCADElement :=
  [.text "3x4" (1, 1) "T"]

/-- A single zero-length line element. -/
def pointLineInput : List AutoCADElement :=
  [.line (2, 3) (2, 3) "L"]

/-! ## General fold lemmas -/

theorem foldl_congrFun (f g : β → α → β) (hfg : ∀ acc a, f acc a = g acc a) :
    ∀ (l : List α) (init : β), l.foldl f init = l.foldl g init := by
  intro l
  induction l with
  | nil => intro init; rfl
  | cons a t ih =>
    intro init
    rw [List.foldl_cons, List.foldl_cons, hfg, ih]

theorem foldl_flatMap (g : γ → β → γ) (f : α → List β) :
    ∀ (l : List α) (init : γ),
      (l.flatMap f).foldl g init = l.foldl (fun acc a => (f a).foldl g acc) init := by
  intro l
  induction l with
  | nil => intro init; rfl
  | cons a t ih =>
    intro init
    rw [List.flatMap_cons, List.foldl_append, List.foldl_cons, ih]

theorem foldl_filterMap (g : γ → β → γ) (f : α → Option β) :
    ∀ (l : List α) (init : γ),
      (l.filterMap f).foldl g init =
        l.foldl (fun acc a => match f a with | some b => g acc b | none => acc) init := by
  intro l
  induction l with
  | nil => intro init; rfl
  | cons a t ih =>
    intro init
    cases h : f a with
    | none => simp only [List.filterMap_cons, h, List.foldl_cons, ih]
    | some b => simp only [List.filterMap_cons, h, List.foldl_cons, ih]

theorem foldl_corridorStep_eq_filterMap :
    ∀ (l : List Room) (acc : List Corridor),
      l.foldl corridorStep acc = acc ++ l.filterMap deriveCorridor := by
  intro l
  induction l with
  | nil => intro acc; simp
  | cons a t ih =>
    intro acc
    cases h : deriveCorridor a with
    | none => simp only [List.foldl_cons, corridorStep, h, ih, List.filterMap_cons]
    | some b => simp only [List.foldl_cons, corridorStep, h, ih, List.filterMap_cons,
        List.append_assoc, List.singleton_append]

/-! ## The candidate-stream view of `detectRooms` -/

theorem detectRooms_eq_stream (hs vs : List Seg) :
    detectRooms hs vs = (roomStream hs vs).foldl dedupInsert [] := by
  unfold detectRooms roomStream
  rw [foldl_flatMap]
  refine foldl_congrFun _ _ (fun acc hp => ?_) _ _
  by_cases hg : |hp.1.y1 - hp.2.y1| > (1 : ℚ)
  · rw [if_pos hg, if_pos hg, foldl_filterMap]
    refine foldl_congrFun _ _ (fun acc2 vp => ?_) _ _
    cases hc : roomCandidate hp.1 hp.2 vp.1 vp.2 with
    | none => simp only [hc]
    | some r => simp only [hc]
  · rw [if_neg hg, if_neg hg]
    rfl

theorem mem_foldl_dedupInsert {x : Room} :
    ∀ (l : List Room) (acc : List Room), x ∈ l.foldl dedupInsert acc → x ∈ acc ∨ x ∈ l := by
  intro l
  induction l with
  | nil =>
    intro acc h
    exact Or.inl h
  | cons r t ih =>
    intro acc h
    rw [List.foldl_cons] at h
    rcases ih _ h with h1 | h1
    · unfold dedupInsert at h1
      split at h1
      · exact Or.inl h1
      · rcases List.mem_append.mp h1 with h2 | h2
        · exact Or.inl h2
        · rw [List.mem_singleton] at h2
          exact Or.inr (h2 ▸ List.mem_cons_self r t)
    · exact Or.inr (List.mem_cons_of_mem _ h1)

theorem roomsNear_iff (a b : Room) :
    roomsNear a b = true ↔
      (|a.x - b.x| < 0.5 ∧ |a.y - b.y| < 0.5 ∧
       |a.width - b.width| < 0.5 ∧ |a.height - b.height| < 0.5) := by
  simp [roomsNear, Bool.and_eq_true, decide_eq_true_eq, and_assoc]

theorem roomApart_symm : Symmetric RoomApart := by
  intro a b hab hcon
  apply hab
  obtain ⟨h1, h2, h3, h4⟩ := hcon
  rw [abs_sub_comm] at h1 h2 h3 h4
  exact ⟨h1, h2, h3, h4⟩

theorem pairwise_foldl_dedupInsert :
    ∀ (l : List Room) (acc : List Room), acc.Pairwise RoomApart →
      (l.foldl dedupInsert acc).Pairwise RoomApart := by
  intro l
  induction l with
  | nil =>
    intro acc h
    exact h
  | cons r t ih =>
    intro acc h
    rw [List.foldl_cons]
    apply ih
    unfold dedupInsert
    split
    · exact h
    · rename_i hnone
      rw [List.pairwise_append]
      refine ⟨h, List.pairwise_singleton _ _, ?_⟩
      intro a ha b hb
      rw [List.mem_singleton] at hb
      subst hb
      intro hconj
      apply hnone
      rw [List.any_eq_true]
      exact ⟨a, ha, (roomsNear_iff a b).mpr hconj⟩

theorem identifyStructures_rooms_pairwise (elements : List AutoCADElement) :
    ((identifyStructures elements).rooms).Pairwise RoomApart := by
  show (detectRooms _ _).Pairwise RoomApart
  rw [detectRooms_eq_stream]
  exact pairwise_foldl_dedupInsert _ _ List.Pairwise.nil

theorem roomCandidate_size {h1L h2L v1L v2L : Seg} {r : Room}
    (h : roomCandidate h1L h2L v1L v2L = some r) : 1 < r.width ∧ 1 < r.height := by
  simp only [roomCandidate] at h
  split at h
  · split at h
    · split at h
      · rename_i hsize
        cases h
        exact ⟨hsize.1, hsize.2⟩
      · exact absurd h (by simp)
    · exact absurd h (by simp)
  · exact absurd h (by simp)

theorem mem_roomStream_size {hs vs : List Seg} {r : Room} (h : r ∈ roomStream hs vs) :
    1 < r.width ∧ 1 < r.height := by
  unfold roomStream at h
  rw [List.mem_flatMap] at h
  obtain ⟨hp, _, hmem⟩ := h
  split at hmem
  · rw [List.mem_filterMap] at hmem
    obtain ⟨vp, _, hc⟩ := hmem
    exact roomCandidate_size hc
  · exact absurd hmem (List.not_mem_nil r)

theorem mem_identifyStructures_rooms {elements : List AutoCADElement} {r : Room}
    (h : r ∈ (identifyStructures elements).rooms) :
    r ∈ roomStream (classifySegs (lineElems elements)).1 (classifySegs (lineElems elements)).2 := by
  have h' : r ∈ detectRooms (classifySegs (lineElems elements)).1
      (classifySegs (lineElems elements)).2 := h
  rw [detectRooms_eq_stream] at h'
  rcases mem_foldl_dedupInsert _ _ h' with h2 | h2
  · exact absurd h2 (List.not_mem_nil r)
  · exact h2

/-! ## Concrete evaluations of `identifyStructures` -/

theorem threeRoom_rooms :
    (identifyStructures threeRoomInput).rooms =
      [⟨0, 0, 5, 5⟩, ⟨0, 0, 10, 5⟩, ⟨5, 0, 5, 5⟩] := by
  norm_num [identifyStructures, classifySegs, classifyStep, lineElems, detectRooms,
    ordPairs, roomCandidate, linesOverlap, dedupInsert, roomsNear, threeRoomInput,
    List.filterMap_cons]

theorem rectRooms_eval :
    (identifyStructures rectInput).rooms = [⟨0, 0, 10, 5⟩] := by
  norm_num [identifyStructures, classifySegs, classifyStep, lineElems, detectRooms,
    ordPairs, roomCandidate, linesOverlap, dedupInsert, roomsNear, rectInput,
    List.filterMap_cons]

set_option maxHeartbeats 8000000 in
theorem studio_rooms :
    (identifyStructures studioInput).rooms =
      [⟨0, 0, 4, 5⟩, ⟨0, 0, 10, 5⟩, ⟨4, 0, 6, 5⟩] := by
  norm_num [identifyStructures, classifySegs, classifyStep, lineElems, detectRooms,
    ordPairs, roomCandidate, linesOverlap, dedupInsert, roomsNear, studioInput,
    List.filterMap_cons]

/-! ## Claim theorems -/

/-- C1: on the input made of exactly the four line elements
`h1 = (0,0)-(10,0)`, `h2 = (0,5)-(10,5)`, `v1 = (0,0)-(0,5)` and
`v2 = (10,0)-(10,5)`, room detection returns exactly one room, namely
`{x := 0, y := 0, width := 10, height := 5}`. -/
theorem rect_exactly_one_room :
    (identifyStructures rectInput).rooms = [⟨0, 0, 10, 5⟩] :=
  rectRooms_eval

/-- C2: in the rooms list returned by `identifyStructures`, no two distinct
rooms are simultaneously within 0.5 of each other on all four fields. -/
theorem rooms_dedup_invariant (elements : List AutoCADElement) (r1 r2 : Room)
    (h1 : r1 ∈ (identifyStructures elements).rooms)
    (h2 : r2 ∈ (identifyStructures elements).rooms) (hne : r1 ≠ r2) :
    ¬(|r1.x - r2.x| < 0.5 ∧ |r1.y - r2.y| < 0.5 ∧
      |r1.width - r2.width| < 0.5 ∧ |r1.height - r2.height| < 0.5) :=
  (identifyStructures_rooms_pairwise elements).forall roomApart_symm h1 h2 hne

/-- Witness for C2: the three-room input yields two distinct rooms, and
they are not within tolerance of each other. -/
theorem rooms_dedup_invariant_witness :
    (⟨0, 0, 5, 5⟩ : Room) ∈ (identifyStructures threeRoomInput).rooms ∧
    (⟨0, 0, 10, 5⟩ : Room) ∈ (identifyStructures threeRoomInput).rooms ∧
    (⟨0, 0, 5, 5⟩ : Room) ≠ (⟨0, 0, 10, 5⟩ : Room) ∧
    ¬(|(⟨0, 0, 5, 5⟩ : Room).x - (⟨0, 0, 10, 5⟩ : Room).x| < 0.5 ∧
      |(⟨0, 0, 5, 5⟩ : Room).y - (⟨0, 0, 10, 5⟩ : Room).y| < 0.5 ∧
      |(⟨0, 0, 5, 5⟩ : Room).width - (⟨0, 0, 10, 5⟩ : Room).width| < 0.5 ∧
      |(⟨0, 0, 5, 5⟩ : Room).height - (⟨0, 0, 10, 5⟩ : Room).height| < 0.5) := by
  have hm1 : (⟨0, 0, 5, 5⟩ : Room) ∈ (identifyStructures threeRoomInput).rooms := by
    rw [threeRoom_rooms]; exact List.mem_cons_self _ _
  have hm2 : (⟨0, 0, 10, 5⟩ : Room) ∈ (identifyStructures threeRoomInput).rooms := by
    rw [threeRoom_rooms]; exact List.mem_cons_of_mem _ (List.mem_cons_self _ _)
  have hne : (⟨0, 0, 5, 5⟩ : Room) ≠ (⟨0, 0, 10, 5⟩ : Room) := by
    intro h
    exact absurd (congrArg Room.width h) (by norm_num)
  exact ⟨hm1, hm2, hne, rooms_dedup_invariant threeRoomInput _ _ hm1 hm2 hne⟩

/-- C3: every room returned by `identifyStructures` has width and height
strictly greater than 1. -/
theorem rooms_min_size (elements : List AutoCADElement) (r : Room)
    (hr : r ∈ (identifyStructures elements).rooms) : r.width > 1 ∧ r.height > 1 :=
  mem_roomStream_size (mem_identifyStructures_rooms hr)

/-- Witness for C3: the detected room of the rectangle input satisfies the
size bound. -/
theorem rooms_min_size_witness :
    (⟨0, 0, 10, 5⟩ : Room) ∈ (identifyStructures rectInput).rooms ∧
    (⟨0, 0, 10, 5⟩ : Room).width > 1 ∧ (⟨0, 0, 10, 5⟩ : Room).height > 1 := by
  have hm : (⟨0, 0, 10, 5⟩ : Room) ∈ (identifyStructures rectInput).rooms := by
    rw [rectRooms_eval]; exact List.mem_cons_self _ _
  exact ⟨hm, rooms_min_size rectInput _ hm⟩

/-- C4: a room record with width 9 and height 1 is classified as exactly one
corridor, spanning the room's full x-extent at half height with width 1; and
corridor derivation emits at most one corridor per room. -/
theorem corridor_of_nine_by_one :
    (∀ r : Room, r.width = 9 → r.height = 1 →
      deriveCorridor r = some ⟨r.x, r.y + 0.5, r.x + 9, r.y + 0.5, 1⟩) ∧
    ∀ rooms : List Room, (deriveCorridors rooms).length ≤ rooms.length := by
  constructor
  · intro r hw hh
    unfold deriveCorridor
    rw [hw, hh]
    rw [if_pos (by norm_num), if_pos (by norm_num)]
    norm_num
  · intro rooms
    unfold deriveCorridors
    rw [foldl_corridorStep_eq_filterMap, List.nil_append]
    exact List.length_filterMap_le _ _

/-- Witness for C4: the 9-by-1 room at the origin. -/
theorem corridor_of_nine_by_one_witness :
    deriveCorridor ⟨0, 0, 9, 1⟩ = some ⟨0, 0.5, 9, 0.5, 1⟩ ∧
    (deriveCorridors [⟨0, 0, 9, 1⟩]).length ≤ 1 := by
  constructor
  · have h := corridor_of_nine_by_one.1 ⟨0, 0, 9, 1⟩ rfl rfl
    rw [h]
    norm_num
  · exact corridor_of_nine_by_one.2 [⟨0, 0, 9, 1⟩]

/-! ## Zero-length lines (C5) -/

theorem linesOverlap_point {a b : ℚ} (h : linesOverlap a a b b = true) : |a - b| ≤ 0.5 := by
  unfold linesOverlap at h
  simp only [Bool.or_eq_true, decide_eq_true_eq] at h
  rw [abs_sub_le_iff]
  rcases h with ((h1 | h1) | h1) | h1 <;> exact ⟨by linarith [h1.1, h1.2], by linarith [h1.1, h1.2]⟩

theorem roomCandidate_none_left {h1L h2L v1L v2L : Seg} (hdeg : h1L.x1 = h1L.x2) :
    roomCandidate h1L h2L v1L v2L = none := by
  simp only [roomCandidate]
  split
  · rename_i hgate
    rw [if_neg]
    intro hband
    simp only [Bool.and_eq_true] at hband
    obtain ⟨⟨⟨⟨⟨⟨⟨o1, o2⟩, _⟩, _⟩, _⟩, _⟩, _⟩, _⟩ := hband
    rw [← hdeg] at o1 o2
    have d1 := linesOverlap_point o1
    have d2 := linesOverlap_point o2
    have tri := abs_sub_le v1L.x1 h1L.x1 v2L.x1
    rw [abs_sub_comm v1L.x1 h1L.x1] at tri
    have : |v1L.x1 - v2L.x1| ≤ 1 := by linarith
    linarith [hgate]
  · rfl

theorem roomCandidate_none_right {h1L h2L v1L v2L : Seg} (hdeg : h2L.x1 = h2L.x2) :
    roomCandidate h1L h2L v1L v2L = none := by
  simp only [roomCandidate]
  split
  · rename_i hgate
    rw [if_neg]
    intro hband
    simp only [Bool.and_eq_true] at hband
    obtain ⟨⟨⟨⟨⟨⟨⟨_, _⟩, o3⟩, o4⟩, _⟩, _⟩, _⟩, _⟩ := hband
    rw [← hdeg] at o3 o4
    have d1 := linesOverlap_point o3
    have d2 := linesOverlap_point o4
    have tri := abs_sub_le v1L.x1 h2L.x1 v2L.x1
    rw [abs_sub_comm v1L.x1 h2L.x1] at tri
    have : |v1L.x1 - v2L.x1| ≤ 1 := by linarith
    linarith [hgate]
  · rfl

theorem flatMap_all_nil {g : α → List β} :
    ∀ l : List α, (∀ x ∈ l, g x = []) → l.flatMap g = [] := by
  intro l
  induction l with
  | nil => intro _; rfl
  | cons a t ih =>
    intro h
    rw [List.flatMap_cons, h a (List.mem_cons_self a t), List.nil_append]
    exact ih fun x hx => h x (List.mem_cons_of_mem a hx)

theorem flatMap_filter_nil {p : α → Bool} {g : α → List β}
    (hg : ∀ x, p x = false → g x = []) :
    ∀ l : List α, (l.filter p).flatMap g = l.flatMap g := by
  intro l
  induction l with
  | nil => rfl
  | cons a t ih =>
    cases hp : p a with
    | true => rw [List.filter_cons_of_pos hp, List.flatMap_cons, List.flatMap_cons, ih]
    | false => rw [List.filter_cons_of_neg (by simp [hp]), List.flatMap_cons, hg a hp,
        List.nil_append, ih]

theorem ordPairs_flatMap_filter {p : α → Bool} {f : α × α → List β}
    (hl : ∀ a b, p a = false → f (a, b) = [])
    (hr : ∀ a b, p b = false → f (a, b) = []) :
    ∀ l : List α, (ordPairs (l.filter p)).flatMap f = (ordPairs l).flatMap f := by
  intro l
  induction l with
  | nil => rfl
  | cons a t ih =>
    cases hp : p a with
    | true =>
      rw [List.filter_cons_of_pos hp]
      show ((t.filter p).map (fun b => (a, b)) ++ ordPairs (t.filter p)).flatMap f = _
      rw [List.flatMap_append, ih]
      show _ = ((t.map (fun b => (a, b))) ++ ordPairs t).flatMap f
      rw [List.flatMap_append]
      congr 1
      rw [List.flatMap_map, List.flatMap_map]
      exact flatMap_filter_nil (fun x hx => hr a x hx) t
    | false =>
      rw [List.filter_cons_of_neg (by simp [hp]), ih]
      show _ = ((t.map (fun b => (a, b))) ++ ordPairs t).flatMap f
      rw [List.flatMap_append, List.flatMap_map,
        flatMap_all_nil t (fun x _ => hl a x hp), List.nil_append]

theorem roomStream_filter_degenerate {p : Seg → Bool}
    (hp : ∀ s, p s = false → s.x1 = s.x2) (hs vs : List Seg) :
    roomStream (hs.filter p) vs = roomStream hs vs := by
  unfold roomStream
  refine ordPairs_flatMap_filter ?_ ?_ hs
  · intro a b ha
    split
    · rw [List.filterMap_eq_nil_iff]
      intro vp _
      exact roomCandidate_none_left (hp a ha)
    · rfl
  · intro a b hb
    split
    · rw [List.filterMap_eq_nil_iff]
      intro vp _
      exact roomCandidate_none_right (hp b hb)
    · rfl

theorem detectRooms_filter_degenerate {p : Seg → Bool}
    (hp : ∀ s, p s = false → s.x1 = s.x2) (hs vs : List Seg) :
    detectRooms (hs.filter p) vs = detectRooms hs vs := by
  rw [detectRooms_eq_stream, detectRooms_eq_stream, roomStream_filter_degenerate hp]

theorem classifySegs_eq_filterMap :
    ∀ ls : List (Coord × Coord), classifySegs ls = (ls.filterMap toHSeg, ls.filterMap toVSeg) := by
  have aux : ∀ (ls : List (Coord × Coord)) (h0 v0 : List Seg),
      ls.foldl classifyStep (h0, v0) = (h0 ++ ls.filterMap toHSeg, v0 ++ ls.filterMap toVSeg) := by
    intro ls
    induction ls with
    | nil => intro h0 v0; simp
    | cons l t ih =>
      intro h0 v0
      rw [List.foldl_cons]
      by_cases hH : |l.2.2 - l.1.2| < 0.1
      · have hstep : classifyStep (h0, v0) l =
            (h0 ++ [⟨min l.1.1 l.2.1, max l.1.1 l.2.1, l.1.2, l.2.2⟩], v0) := by
          simp only [classifyStep, if_pos hH]
        rw [hstep, ih, List.filterMap_cons, List.filterMap_cons]
        rw [show toHSeg l = some ⟨min l.1.1 l.2.1, max l.1.1 l.2.1, l.1.2, l.2.2⟩ from
          if_pos hH]
        rw [show toVSeg l = none from if_pos hH]
        simp [List.append_assoc]
      · by_cases hV : |l.2.1 - l.1.1| < 0.1
        · have hstep : classifyStep (h0, v0) l =
              (h0, v0 ++ [⟨l.1.1, l.2.1, min l.1.2 l.2.2, max l.1.2 l.2.2⟩]) := by
            simp only [classifyStep, if_neg hH, if_pos hV]
          rw [hstep, ih, List.filterMap_cons, List.filterMap_cons]
          rw [show toHSeg l = none from if_neg hH]
          rw [show toVSeg l = some ⟨l.1.1, l.2.1, min l.1.2 l.2.2, max l.1.2 l.2.2⟩ from by
            rw [toVSeg, if_neg hH, if_pos hV]]
          simp [List.append_assoc]
        · have hstep : classifyStep (h0, v0) l = (h0, v0) := by
            simp only [classifyStep, if_neg hH, if_neg hV]
          rw [hstep, ih, List.filterMap_cons, List.filterMap_cons]
          rw [show toHSeg l = none from if_neg hH]
          rw [show toVSeg l = none from by rw [toVSeg, if_neg hH, if_neg hV]]
  intro ls
  simpa using aux ls [] []

theorem filterMap_filter_none {q : α → Bool} {f : α → Option β}
    (hf : ∀ x, q x = false → f x = none) :
    ∀ l : List α, (l.filter q).filterMap f = l.filterMap f := by
  intro l
  induction l with
  | nil => rfl
  | cons a t ih =>
    cases hq : q a with
    | true => rw [List.filter_cons_of_pos hq, List.filterMap_cons, List.filterMap_cons, ih]
    | false => rw [List.filter_cons_of_neg (by simp [hq]), List.filterMap_cons, hf a hq, ih]

theorem lineElems_filter_pointLines (elements : List AutoCADElement) :
    lineElems (elements.filter fun e => !isPointLine e) =
      (lineElems elements).filter fun l => !decide (l.1 = l.2) := by
  induction elements with
  | nil => rfl
  | cons e t ih =>
    cases e with
    | line p1 p2 layer =>
      by_cases hp : p1 = p2
      · rw [List.filter_cons_of_neg (by simp [isPointLine, hp])]
        rw [ih]
        rw [show lineElems (AutoCADElement.line p1 p2 layer :: t) =
          (p1, p2) :: lineElems t from rfl]
        rw [List.filter_cons_of_neg (by simp [hp])]
      · rw [List.filter_cons_of_pos (by simp [isPointLine, hp])]
        rw [show lineElems (AutoCADElement.line p1 p2 layer :: t.filter fun e => !isPointLine e) =
          (p1, p2) :: lineElems (t.filter fun e => !isPointLine e) from rfl]
        rw [show lineElems (AutoCADElement.line p1 p2 layer :: t) =
          (p1, p2) :: lineElems t from rfl]
        rw [List.filter_cons_of_pos (by simp [hp]), ih]
    | circle c r layer =>
      rw [List.filter_cons_of_pos (by simp [isPointLine])]
      show lineElems (_ :: _) = _
      rw [show lineElems (AutoCADElement.circle c r layer :: t.filter fun e => !isPointLine e) =
        lineElems (t.filter fun e => !isPointLine e) from rfl]
      rw [show lineElems (AutoCADElement.circle c r layer :: t) = lineElems t from rfl]
      exact ih
    | text s pos layer =>
      rw [List.filter_cons_of_pos (by simp [isPointLine])]
      rw [show lineElems (AutoCADElement.text s pos layer :: t.filter fun e => !isPointLine e) =
        lineElems (t.filter fun e => !isPointLine e) from rfl]
      rw [show lineElems (AutoCADElement.text s pos layer :: t) = lineElems t from rfl]
      exact ih

theorem toVSeg_point {l : Coord × Coord} (h : l.1 = l.2) : toVSeg l = none := by
  unfold toVSeg
  rw [if_pos]
  rw [show l.2.2 = l.1.2 from by rw [h]]
  norm_num

theorem toHSeg_point {l : Coord × Coord} (h : l.1 = l.2) :
    toHSeg l = some ⟨l.1.1, l.1.1, l.1.2, l.2.2⟩ := by
  unfold toHSeg
  rw [show l.2.2 = l.1.2 from by rw [h], show l.2.1 = l.1.1 from by rw [h]]
  rw [if_pos (by norm_num)]
  rw [min_self, max_self]

/-- C5 (amended): a zero-length line is classified into the horizontal set
(and not the vertical set); nevertheless it contributes to no detected
structure: removing all zero-length lines leaves `identifyStructures`
unchanged. -/
theorem zero_length_horizontal_no_room :
    (∀ (ls : List (Coord × Coord)) (p : Coord),
      classifySegs (ls ++ [(p, p)]) =
        ((classifySegs ls).1 ++ [⟨p.1, p.1, p.2, p.2⟩], (classifySegs ls).2)) ∧
    (∀ elements : List AutoCADElement,
      identifyStructures (elements.filter fun e => !isPointLine e) =
        identifyStructures elements) := by
  constructor
  · intro ls p
    unfold classifySegs
    rw [List.foldl_append]
    show classifyStep (ls.foldl classifyStep ([], [])) (p, p) = _
    simp only [classifyStep]
    norm_num
  · intro elements
    have hq : ∀ l : Coord × Coord, (!decide (l.1 = l.2)) = false → l.1 = l.2 := by
      intro l h
      simpa using h
    unfold identifyStructures
    rw [lineElems_filter_pointLines, classifySegs_eq_filterMap, classifySegs_eq_filterMap]
    have hvs : (((lineElems elements).filter fun l => !decide (l.1 = l.2)).filterMap toVSeg) =
        (lineElems elements).filterMap toVSeg :=
      filterMap_filter_none (fun x hx => toVSeg_point (hq x hx)) _
    have hrooms :
        detectRooms (((lineElems elements).filter fun l => !decide (l.1 = l.2)).filterMap toHSeg)
            ((lineElems elements).filterMap toVSeg) =
          detectRooms ((lineElems elements).filterMap toHSeg)
            ((lineElems elements).filterMap toVSeg) := by
      have hnd : ∀ s : Seg, (!decide (s.x1 = s.x2)) = false → s.x1 = s.x2 := by
        intro s h
        simpa using h
      rw [← detectRooms_filter_degenerate hnd
        (((lineElems elements).filter fun l => !decide (l.1 = l.2)).filterMap toHSeg) _]
      rw [← detectRooms_filter_degenerate hnd ((lineElems elements).filterMap toHSeg) _]
      congr 1
      rw [List.filter_filterMap, List.filter_filterMap]
      refine filterMap_filter_none ?_ _
      intro x hx
      rw [toHSeg_point (hq x hx)]
      simp [Option.filter]
    simp only [hvs, hrooms]

/-- C5 (counterexample to the claim as stated): the zero-length line
`(2,3)-(2,3)` is placed in the horizontal set, not in neither set. -/
theorem zero_length_in_horizontal_bucket :
    (classifySegs (lineElems pointLineInput)).1 = [⟨2, 2, 3, 3⟩] ∧
    (classifySegs (lineElems pointLineInput)).1 ≠ [] ∧
    (classifySegs (lineElems pointLineInput)).2 = [] := by
  norm_num [classifySegs, classifyStep, lineElems, pointLineInput, List.filterMap_cons]

/-! ## Drawing-type inference (C6) -/

theorem tenTen_texts : textContents tenTenInput = [] := by
  norm_num [textContents, tenTenInput, List.filterMap_cons]

theorem tenTen_counts : interpHCount tenTenInput = 10 ∧ interpVCount tenTenInput = 10 := by
  norm_num [interpHCount, interpVCount, interpHLens, interpVLens, lineElems, tenTenInput,
    List.filterMap_cons]

theorem tenTen_buildingType : buildingTypeOf tenTenInput = "알 수 없는 형태의" := by
  have ht := tenTen_texts
  have hc := tenTen_counts
  unfold buildingTypeOf
  rw [show hasPlanKw tenTenInput = false from by rw [hasPlanKw, ht]; rfl,
    show hasElevKw tenTenInput = false from by rw [hasElevKw, ht]; rfl,
    show hasSectKw tenTenInput = false from by rw [hasSectKw, ht]; rfl]
  simp only [Bool.false_eq_true, if_false]
  rw [if_neg (by rw [hc.1, hc.2]; norm_num)]
  rw [if_neg (by norm_num [circlesCount, circleElems, linesCount, lineElems, tenTenInput,
    List.filterMap_cons])]

/-- C6 (counterexample to the claim as stated): ten horizontal and ten
vertical lines, with no text keywords, do not select the orthogonal
building-plan branch (the source requires strictly more than ten of each). -/
theorem ten_ten_not_orthogonal :
    textContents tenTenInput = [] ∧
    interpHCount tenTenInput = 10 ∧ interpVCount tenTenInput = 10 ∧
    buildingTypeOf tenTenInput ≠ "직각 구조의 건축물 평면" := by
  refine ⟨tenTen_texts, tenTen_counts.1, tenTen_counts.2, ?_⟩
  rw [tenTen_buildingType]
  decide

/-- C6 (amended): when the texts contain none of the plan, elevation or
section keywords and there are strictly more than ten horizontal and
strictly more than ten vertical lines, the drawing-type inference selects
the orthogonal-building-plan branch. -/
theorem orthogonal_branch_of_counts (elements : List AutoCADElement)
    (h1 : hasPlanKw elements = false) (h2 : hasElevKw elements = false)
    (h3 : hasSectKw elements = false)
    (h4 : interpHCount elements > 10) (h5 : interpVCount elements > 10) :
    buildingTypeOf elements = "직각 구조의 건축물 평면" := by
  unfold buildingTypeOf
  rw [h1, h2, h3]
  simp only [Bool.false_eq_true, if_false]
  rw [if_pos ⟨h4, h5⟩]

theorem elevenEleven_texts : textContents elevenElevenInput = [] := by
  norm_num [textContents, elevenElevenInput, List.filterMap_cons]

theorem elevenEleven_counts :
    interpHCount elevenElevenInput = 11 ∧ interpVCount elevenElevenInput = 11 := by
  norm_num [interpHCount, interpVCount, interpHLens, interpVLens, lineElems,
    elevenElevenInput, List.filterMap_cons]

/-- Witness for C6: eleven horizontal and eleven vertical lines and no
texts select the orthogonal branch. -/
theorem orthogonal_branch_of_counts_witness :
    hasPlanKw elevenElevenInput = false ∧ hasElevKw elevenElevenInput = false ∧
    hasSectKw elevenElevenInput = false ∧
    interpHCount elevenElevenInput > 10 ∧ interpVCount elevenElevenInput > 10 ∧
    buildingTypeOf elevenElevenInput = "직각 구조의 건축물 평면" := by
  have ht := elevenEleven_texts
  have h1 : hasPlanKw elevenElevenInput = false := by rw [hasPlanKw, ht]; rfl
  have h2 : hasElevKw elevenElevenInput = false := by rw [hasElevKw, ht]; rfl
  have h3 : hasSectKw elevenElevenInput = false := by rw [hasSectKw, ht]; rfl
  have h4 : interpHCount elevenElevenInput > 10 := by rw [elevenEleven_counts.1]; norm_num
  have h5 : interpVCount elevenElevenInput > 10 := by rw [elevenEleven_counts.2]; norm_num
  exact ⟨h1, h2, h3, h4, h5, orthogonal_branch_of_counts _ h1 h2 h3 h4 h5⟩

/-! ## Purpose inference (C7) -/

theorem rect_texts : textContents rectInput = [] := by
  norm_num [textContents, rectInput, List.filterMap_cons]

theorem rect_circles_lines :
    ¬((circlesCount rectInput : ℚ) > (linesCount rectInput : ℚ) / 2) := by
  norm_num [circlesCount, circleElems, linesCount, lineElems, rectInput, List.filterMap_cons]

theorem rect_hcount : interpHCount rectInput = 2 := by
  norm_num [interpHCount, interpHLens, lineElems, rectInput, List.filterMap_cons]

theorem purposeText_rect_eval :
    purposeText rectInput =
      "이 도면은 구체적인 구조물이나 시스템의 설계도로 보입니다. 정확한 용도는 전문가의 확인이 필요합니다. " := by
  have ht := rect_texts
  unfold purposeText
  rw [show hasFloorPlanKw rectInput = false from by rw [hasFloorPlanKw, ht]; rfl,
    show hasElevPurposeKw rectInput = false from by rw [hasElevPurposeKw, ht]; rfl]
  simp only [Bool.false_eq_true, if_false]
  rw [if_neg rect_circles_lines]
  rw [if_neg (fun hconj => absurd (rect_hcount ▸ hconj.1) (by norm_num))]

/-- C7 (counterexample to the claim as stated): the plain rectangle input
has no keywords, few circles, a single detected room of area 50 > 20, yet
the purpose paragraph selects the generic branch, not the
commercial/studio branch (the multi-room gate `h > 5 ∧ v > 5 ∧ rooms > 2`
fails). -/
theorem few_rooms_large_not_studio :
    hasFloorPlanKw rectInput = false ∧ hasElevPurposeKw rectInput = false ∧
    ¬((circlesCount rectInput : ℚ) > (linesCount rectInput : ℚ) / 2) ∧
    (identifyStructures rectInput).rooms.length ≤ 3 ∧
    (∃ r ∈ (identifyStructures rectInput).rooms, r.width * r.height > 20) ∧
    purposeText rectInput ≠
      "이 도면은 건축물의 평면도로, 여러 방과 공간이 구획되어 있습니다. " ++
      "몇 개의 방과 큰 공간이 있는 것으로 보아 상업 공간이나 스튜디오 형태의 주거 공간으로 추정됩니다. " := by
  have ht := rect_texts
  refine ⟨by rw [hasFloorPlanKw, ht]; rfl, by rw [hasElevPurposeKw, ht]; rfl,
    rect_circles_lines, by rw [rectRooms_eval]; norm_num, ?_, ?_⟩
  · refine ⟨⟨0, 0, 10, 5⟩, by rw [rectRooms_eval]; exact List.mem_cons_self _ _, by norm_num⟩
  · rw [purposeText_rect_eval]
    decide

/-- C7 (amended): under the additional gates the source actually tests —
more than five horizontal and more than five vertical lines and more than
two detected rooms — an element list with no floor-plan or elevation
keyword, circles not exceeding half the lines, at most three rooms, and
some room of area above 20 selects the commercial/studio branch. -/
theorem studio_branch_conditions (elements : List AutoCADElement)
    (h1 : hasFloorPlanKw elements = false) (h2 : hasElevPurposeKw elements = false)
    (h3 : ¬((circlesCount elements : ℚ) > (linesCount elements : ℚ) / 2))
    (h4 : interpHCount elements > 5) (h5 : interpVCount elements > 5)
    (h6 : (identifyStructures elements).rooms.length > 2)
    (h7 : (identifyStructures elements).rooms.length ≤ 3)
    (h8 : ∃ r ∈ (identifyStructures elements).rooms, r.width * r.height > 20) :
    purposeText elements =
      "이 도면은 건축물의 평면도로, 여러 방과 공간이 구획되어 있습니다. " ++
      "몇 개의 방과 큰 공간이 있는 것으로 보아 상업 공간이나 스튜디오 형태의 주거 공간으로 추정됩니다. " := by
  have h8' : hasLargeRoom elements = true := by
    rw [hasLargeRoom, List.any_eq_true]
    obtain ⟨r, hr, hArea⟩ := h8
    exact ⟨r, hr, decide_eq_true hArea⟩
  unfold purposeText
  rw [h1, h2]
  simp only [Bool.false_eq_true, if_false]
  rw [if_neg h3, if_pos ⟨h4, h5, h6⟩]
  rw [if_neg (by omega : ¬((identifyStructures elements).rooms.length ≥ 4))]
  rw [if_pos ⟨h7, h8'⟩]

theorem studio_texts : textContents studioInput = [] := by
  norm_num [textContents, studioInput, List.filterMap_cons]

theorem studio_counts : interpHCount studioInput = 6 ∧ interpVCount studioInput = 6 := by
  norm_num [interpHCount, interpVCount, interpHLens, interpVLens, lineElems, studioInput,
    List.filterMap_cons]

theorem studio_circles_lines :
    ¬((circlesCount studioInput : ℚ) > (linesCount studioInput : ℚ) / 2) := by
  norm_num [circlesCount, circleElems, linesCount, lineElems, studioInput, List.filterMap_cons]

/-- Witness for C7: the studio complex (three rooms, one of area 50, six
horizontal and six vertical lines) selects the commercial/studio branch. -/
theorem studio_branch_conditions_witness :
    hasFloorPlanKw studioInput = false ∧ hasElevPurposeKw studioInput = false ∧
    ¬((circlesCount studioInput : ℚ) > (linesCount studioInput : ℚ) / 2) ∧
    interpHCount studioInput > 5 ∧ interpVCount studioInput > 5 ∧
    (identifyStructures studioInput).rooms.length > 2 ∧
    (identifyStructures studioInput).rooms.length ≤ 3 ∧
    (∃ r ∈ (identifyStructures studioInput).rooms, r.width * r.height > 20) ∧
    purposeText studioInput =
      "이 도면은 건축물의 평면도로, 여러 방과 공간이 구획되어 있습니다. " ++
      "몇 개의 방과 큰 공간이 있는 것으로 보아 상업 공간이나 스튜디오 형태의 주거 공간으로 추정됩니다. " := by
  have ht := studio_texts
  have h1 : hasFloorPlanKw studioInput = false := by rw [hasFloorPlanKw, ht]; rfl
  have h2 : hasElevPurposeKw studioInput = false := by rw [hasElevPurposeKw, ht]; rfl
  have h4 : interpHCount studioInput > 5 := by rw [studio_counts.1]; norm_num
  have h5 : interpVCount studioInput > 5 := by rw [studio_counts.2]; norm_num
  have h6 : (identifyStructures studioInput).rooms.length > 2 := by
    rw [studio_rooms]; norm_num
  have h7 : (identifyStructures studioInput).rooms.length ≤ 3 := by
    rw [studio_rooms]; norm_num
  have h8 : ∃ r ∈ (identifyStructures studioInput).rooms, r.width * r.height > 20 := by
    refine ⟨⟨0, 0, 10, 5⟩, ?_, by norm_num⟩
    rw [studio_rooms]
    exact List.mem_cons_of_mem _ (List.mem_cons_self _ _)
  exact ⟨h1, h2, studio_circles_lines, h4, h5, h6, h7, h8,
    studio_branch_conditions _ h1 h2 studio_circles_lines h4 h5 h6 h7 h8⟩

/-! ## Dimension-text listing (C8) -/

theorem digits1_cons_ne_nil {c : Char} {t : List Char} (h : c.isDigit = true) :
    digits1 (c :: t) ≠ [] := by
  unfold digits1
  rw [if_pos h]
  exact List.cons_ne_nil _ _

theorem optRem_ne_nil (f : List Char → List (List Char)) (l : List Char) :
    optRem f l ≠ [] :=
  List.cons_ne_nil _ _

theorem seqRem_ne_nil {f g : List Char → List (List Char)} {l : List Char}
    (hf : f l ≠ []) (hg : ∀ r, g r ≠ []) : seqRem f g l ≠ [] := by
  obtain ⟨x, xs, hx⟩ := List.exists_cons_of_ne_nil hf
  unfold seqRem
  rw [hx, List.flatMap_cons]
  intro hcontra
  rw [List.append_eq_nil] at hcontra
  exact hg x hcontra.1

theorem seqRem_digits1_head {g : List Char → List (List Char)} {l : List Char}
    (h : seqRem digits1 g l ≠ []) : ∃ c t, l = c :: t ∧ c.isDigit = true := by
  cases l with
  | nil => exact absurd rfl h
  | cons c t =>
    cases hd : c.isDigit with
    | true => exact ⟨c, t, rfl, hd⟩
    | false =>
      exfalso
      apply h
      unfold seqRem digits1
      rw [if_neg (by simp [hd])]
      rfl

theorem dimPat1Rem_cons_ne_nil {c : Char} {t : List Char} (h : c.isDigit = true) :
    dimPat1Rem (c :: t) ≠ [] :=
  seqRem_ne_nil (digits1_cons_ne_nil h)
    fun _ => seqRem_ne_nil (optRem_ne_nil _ _) fun _ => optRem_ne_nil _ _

theorem searchRem_of_digit_mem {f : List Char → List (List Char)}
    (hf : ∀ (c : Char) (t : List Char), c.isDigit = true → f (c :: t) ≠ []) :
    ∀ l : List Char, (∃ c ∈ l, c.isDigit = true) → searchRem f l = true := by
  intro l
  induction l with
  | nil =>
    intro h
    obtain ⟨c, hc, _⟩ := h
    exact absurd hc (List.not_mem_nil c)
  | cons c t ih =>
    intro h
    show (!(f (c :: t)).isEmpty || searchRem f t) = true
    rw [Bool.or_eq_true]
    cases hd : c.isDigit with
    | true =>
      left
      simpa [List.isEmpty_iff] using hf c t hd
    | false =>
      right
      apply ih
      obtain ⟨c', hc', hd'⟩ := h
      rcases List.mem_cons.mp hc' with h1 | h1
      · rw [h1] at hd'
        exact absurd hd' (by rw [hd]; exact Bool.false_ne_true)
      · exact ⟨c', h1, hd'⟩

theorem searchRem_imp_digit {f : List Char → List (List Char)}
    (hf : ∀ l', f l' ≠ [] → ∃ c t, l' = c :: t ∧ c.isDigit = true) :
    ∀ l : List Char, searchRem f l = true → ∃ c ∈ l, c.isDigit = true := by
  intro l
  induction l with
  | nil =>
    intro h
    rw [show searchRem f [] = !(f []).isEmpty from rfl, Bool.not_eq_true'] at h
    rw [List.isEmpty_eq_false] at h
    obtain ⟨c, t, hct, _⟩ := hf [] h
    exact absurd hct (List.cons_ne_nil c t).symm
  | cons c t ih =>
    intro h
    rw [show searchRem f (c :: t) = (!(f (c :: t)).isEmpty || searchRem f t) from rfl,
      Bool.or_eq_true] at h
    rcases h with h1 | h1
    · rw [Bool.not_eq_true', List.isEmpty_eq_false] at h1
      obtain ⟨c', t', hct, hd⟩ := hf _ h1
      obtain ⟨he1, _⟩ := List.cons.inj hct
      exact ⟨c, List.mem_cons_self c t, he1 ▸ hd⟩
    · obtain ⟨c', hc', hd'⟩ := ih h1
      exact ⟨c', List.mem_cons_of_mem c hc', hd'⟩

theorem dimPatternSpec_imp_digit {s : String} (h : dimPatternSpecTest s = true) :
    ∃ c ∈ s.data, c.isDigit = true := by
  unfold dimPatternSpecTest at h
  refine searchRem_imp_digit ?_ s.data h
  intro l' hne
  unfold altRem at hne
  by_cases h1 : seqRem digits1
      (seqRem (optRem decimalRem)
        (optRem (seqRem spaces0 (seqRem (charRem isXChar)
          (seqRem spaces0 (seqRem digits1 (optRem decimalRem))))))) l' = []
  · rw [h1, List.nil_append] at hne
    exact seqRem_digits1_head hne
  · exact seqRem_digits1_head h1

theorem dimTest1_of_digit {s : String} (h : ∃ c ∈ s.data, c.isDigit = true) :
    dimTest1 s = true := by
  unfold dimTest1
  exact searchRem_of_digit_mem (fun c t hd => dimPat1Rem_cons_ne_nil hd) s.data h

/-! String-infix helper lemmas. -/

theorem infix_append_left {x B : List Char} (A : List Char) (h : x <:+: B) :
    x <:+: A ++ B :=
  h.trans ⟨A, [], by simp⟩

theorem infix_append_right {x B : List Char} (h : x <:+: B) (C : List Char) :
    x <:+: B ++ C :=
  h.trans ⟨[], C, by simp⟩

theorem str_infix_append_left {x : List Char} (a : String) {s : String}
    (h : x <:+: s.data) : x <:+: (a ++ s).data := by
  rw [String.data_append]
  exact infix_append_left _ h

theorem str_infix_append_right {x : List Char} {s : String} (h : x <:+: s.data)
    (b : String) : x <:+: (s ++ b).data := by
  rw [String.data_append]
  exact infix_append_right h _

theorem mem_joinSep_infix {x : String} (sep : String) :
    ∀ l : List String, x ∈ l → x.data <:+: (joinSep sep l).data := by
  intro l
  induction l with
  | nil =>
    intro h
    exact absurd h (List.not_mem_nil x)
  | cons y ys ih =>
    intro h
    cases ys with
    | nil =>
      rw [List.mem_singleton] at h
      rw [h]
      show (joinSep sep [y]).data <:+: (joinSep sep [y]).data
      exact List.infix_refl _
    | cons z zs =>
      rcases List.mem_cons.mp h with h1 | h1
      · rw [h1]
        show y.data <:+: (y ++ sep ++ joinSep sep (z :: zs)).data
        exact str_infix_append_right (str_infix_append_right (List.infix_refl _) sep) _
      · show x.data <:+: (y ++ sep ++ joinSep sep (z :: zs)).data
        exact str_infix_append_left _ (ih h1)

/-- C8: every text whose content matches the numeric-dimension pattern of
the spec is kept by the source's dimension filter and its quoted content
appears in the interpretation string (inside the dimension-info
paragraph). -/
theorem dimension_text_listed (elements : List AutoCADElement) (t : String)
    (ht : t ∈ textContents elements) (hm : dimPatternSpecTest t = true) :
    t ∈ dimensionTexts elements ∧
    (quoteStr t).data <:+: (generateAutoCADInterpretation elements).data := by
  have hd := dimPatternSpec_imp_digit hm
  have h1 : dimTest1 t = true := dimTest1_of_digit hd
  have hmem : t ∈ dimensionTexts elements := by
    rw [dimensionTexts, List.mem_filter]
    exact ⟨ht, by rw [h1, Bool.true_or]⟩
  refine ⟨hmem, ?_⟩
  have hq : quoteStr t ∈ (dimensionTexts elements).map quoteStr :=
    List.mem_map_of_mem quoteStr hmem
  have hjoin : (quoteStr t).data <:+: (joinSep ", " ((dimensionTexts elements).map quoteStr)).data :=
    mem_joinSep_infix ", " _ hq
  have hdim : (quoteStr t).data <:+: (dimParagraph elements).data := by
    rw [dimParagraph, if_pos (List.length_pos.mpr (List.ne_nil_of_mem hmem))]
    exact str_infix_append_right (str_infix_append_left _ hjoin) _
  have htxt : (quoteStr t).data <:+: (textSection elements).data := by
    rw [textSection, if_pos (List.length_pos.mpr (List.ne_nil_of_mem ht))]
    exact str_infix_append_left _ hdim
  rw [generateAutoCADInterpretation]
  exact str_infix_append_right
    (str_infix_append_right (str_infix_append_left _ htxt) (purposeSection elements))
    disclaimerPar

/-- Witness for C8: the text `"3x4"` matches the pattern and is listed. -/
theorem dimension_text_listed_witness :
    "3x4" ∈ textContents dimTextInput ∧ dimPatternSpecTest "3x4" = true ∧
    "3x4" ∈ dimensionTexts dimTextInput ∧
    (quoteStr "3x4").data <:+: (generateAutoCADInterpretation dimTextInput).data := by
  have ht : "3x4" ∈ textContents dimTextInput := by
    show "3x4" ∈ ["3x4"]
    exact List.mem_singleton.mpr rfl
  have hm : dimPatternSpecTest "3x4" = true := by decide
  obtain ⟨h1, h2⟩ := dimension_text_listed dimTextInput "3x4" ht hm
  exact ⟨ht, hm, h1, h2⟩

/-! ## The empty input (C9) -/

theorem ratRound10_zero : ratRound10 0 = 0 := by
  unfold ratRound10
  norm_num

theorem toFixed1_zero : toFixed1 0 = "0.0" := by
  unfold toFixed1
  rw [ratRound10_zero]
  rfl

theorem buildingTypeOf_nil : buildingTypeOf [] = "알 수 없는 형태의" := by
  norm_num [buildingTypeOf, hasPlanKw, hasElevKw, hasSectKw, textContents, interpHCount,
    interpVCount, interpHLens, interpVLens, lineElems, circlesCount, circleElems, linesCount]

theorem purposeText_nil :
    purposeText [] =
      "이 도면은 구체적인 구조물이나 시스템의 설계도로 보입니다. 정확한 용도는 전문가의 확인이 필요합니다. " := by
  norm_num [purposeText, hasFloorPlanKw, hasElevPurposeKw, textContents, circlesCount,
    circleElems, linesCount, lineElems, interpHCount, interpVCount, interpHLens, interpVLens]

theorem interp_nil_eval :
    generateAutoCADInterpretation [] =
      "이 도면은 알 수 없는 형태의 도면으로, 약 0.0 x 0.0 단위(일반적으로 미터)의 크기를 가지고 있습니다. " ++
      "이 도면은 총 0개의 요소로 구성되어 있으며, 를 포함하고 있습니다. " ++
      "도면은 0개의 레이어로 구성되어 있으며, " ++
      "\n\n이 도면의 추정 용도: 이 도면은 구체적인 구조물이나 시스템의 설계도로 보입니다. 정확한 용도는 전문가의 확인이 필요합니다. " ++
      "\n\n주의: 이 해석은 자동화된 분석 결과이며, 정확한 도면 해석을 위해서는 전문가의 검토가 필요합니다." := by
  show headPart [] ++ roomSection [] ++ textSection [] ++ purposeSection [] ++ disclaimerPar = _
  rw [show roomSection [] = "" from rfl, show textSection [] = "" from rfl]
  rw [headPart, buildingTypeOf_nil]
  rw [show maxHLen [] = 0 from rfl, show maxVLen [] = 0 from rfl, toFixed1_zero]
  rw [purposeSection, purposeText_nil]
  rfl

set_option maxRecDepth 10000 in
/-- C9: on the empty element list the (total, hence non-throwing)
`summarize` output contains the fixed disclaimer paragraph and contains
neither the room-findings section nor the text-excerpts section. -/
theorem summarize_empty_input :
    ("주의: 이 해석은 자동화된 분석 결과이며, 정확한 도면 해석을 위해서는 전문가의 검토가 필요합니다.").data <:+:
      (generateAutoCADInterpretation []).data ∧
    ¬(("개의 방(또는 구획된 공간)이 확인됩니다").data <:+: (generateAutoCADInterpretation []).data) ∧
    ¬(("도면에 포함된 주요 텍스트 정보").data <:+: (generateAutoCADInterpretation []).data) := by
  rw [interp_nil_eval]
  exact ⟨by decide, by decide, by decide⟩

/-- C10: room detection is deterministic — two runs on the same element
list produce the same structure set (same rooms and corridors, in the same
order). -/
theorem identifyStructures_deterministic (e1 e2 : List AutoCADElement) (h : e1 = e2) :
    identifyStructures e1 = identifyStructures e2 := by
  rw [h]

/-- Witness for C10: two runs on the rectangle input agree. -/
theorem identifyStructures_deterministic_witness :
    identifyStructures rectInput = identifyStructures rectInput :=
  identifyStructures_deterministic rectInput rectInput rfl

end CADInterp
